import Mathlib

/-!
Verification of the PR review aggregation and status classification logic of
a React dashboard. The definitions below are shallow embeddings of the
TypeScript functions in `src/components` (PRCard.tsx, Dashboard.tsx,
Analytics.tsx, PRDetailPage.tsx). Timestamps that the code compares through
`new Date(...)` are modelled as natural numbers (epoch milliseconds, the
value `Date` comparison reduces to); timestamps the classification never
compares (`Review.submitted_at`) stay strings as in the source.
-/

/-- Lifecycle status of a pull request: the `status` field of the
`PullRequest` interface, one of `open`, `merged`, `closed`.
(`open` is a Lean keyword, hence the trailing tick.) -/
inductive PRStatus where
  | open'
  | merged
  | closed
deriving DecidableEq

/-- The `PullRequest` interface of Dashboard.tsx / PRCard.tsx. -/
structure PullRequest where
  id : Nat
  github_pr_number : Nat
  title : String
  author : String
  created_at : Nat
  updated_at : Nat
  merged_at : Option Nat
  status : PRStatus
  is_connector_integration : Bool
  current_approvals_count : Nat
  labels : List String
  reviewers : List String
  requested_reviewers : List String
  pending_reviewers : List String
  url : String
deriving DecidableEq

/-- The `review_state` field of the `Review` interface. -/
inductive ReviewState where
  | commented
  | approved
  | changes_requested
deriving DecidableEq

/-- The `Review` interface of Dashboard.tsx / PRCard.tsx. -/
structure Review where
  id : Nat
  pr_id : Nat
  reviewer_username : String
  review_state : ReviewState
  submitted_at : String
  is_latest_review : Bool
deriving DecidableEq

/-- The predicate `r => r.review_state === 'changes_requested'` used in
PRCard.tsx line 179 and Dashboard.tsx lines 130 and 180. -/
def reviewIsChangesRequested (r : Review) : Bool :=
  decide (r.review_state = ReviewState.changes_requested)

/-- `allReviews.filter(r => r.pr_id === pr.github_pr_number)`: the reviews
belonging to one PR (Dashboard.tsx lines 129, 179, 469). -/
def prReviews (allReviews : List Review) (pr : PullRequest) : List Review :=
  allReviews.filter fun r => decide (r.pr_id = pr.github_pr_number)

/-- The template string of PRCard.tsx line 182. -/
def approvalsLabel (a t : Nat) : String :=
  toString a ++ "/" ++ toString t ++ " approvals"

/-- `getStatusText` of PRCard.tsx lines 167-183: the status label derived
from the PR record and its review list. -/
def getStatusText (pr : PullRequest) (reviews : List Review) : String :=
  if pr.status = PRStatus.merged ∨ pr.status = PRStatus.closed then "Merged"
  else if pr.pending_reviewers.length = 0 ∧ pr.current_approvals_count > 0 then "Ready to merge"
  else if pr.current_approvals_count = 0 ∧
      pr.current_approvals_count + pr.pending_reviewers.length = 0 then "No reviewers assigned"
  else if pr.current_approvals_count = 0 then "Needs review"
  else if reviews.any reviewIsChangesRequested then "Changes requested"
  else approvalsLabel pr.current_approvals_count
    (pr.current_approvals_count + pr.pending_reviewers.length)

/-- The severity values used as `statusColor` throughout the source. -/
inductive Severity where
  | success
  | warning
  | danger
  | primary
deriving DecidableEq

/-- `getStatusColor` of Dashboard.tsx lines 165-186: the severity the
Dashboard passes to each `PRCard` as `statusColor`. -/
def getStatusColor (pr : PullRequest) (allReviews : List Review) : Severity :=
  if pr.pending_reviewers.length = 0 ∧ pr.current_approvals_count > 0 then Severity.success
  else if pr.current_approvals_count = 0 ∧
      pr.current_approvals_count + pr.pending_reviewers.length = 0 then Severity.primary
  else if pr.current_approvals_count = 0 then Severity.danger
  else if (prReviews allReviews pr).any reviewIsChangesRequested then Severity.warning
  else Severity.primary

/-- `getStatusBadgeColor` of PRCard.tsx lines 142-153. -/
def getStatusBadgeColor (statusColor : Severity) : String :=
  match statusColor with
  | Severity.success => "bg-success-50 text-success-600 border-success-200"
  | Severity.warning => "bg-warning-50 text-warning-600 border-warning-200"
  | Severity.danger => "bg-danger-50 text-danger-600 border-danger-200"
  | Severity.primary => "bg-primary-50 text-primary-600 border-primary-200"

/-- `getPRStatusColor` of PRCard.tsx lines 185-191: merged and closed PRs
are shown green, otherwise the badge color of the `statusColor` prop. -/
def getPRStatusColor (pr : PullRequest) (statusColor : Severity) : String :=
  if pr.status = PRStatus.merged ∨ pr.status = PRStatus.closed then
    "bg-green-50 text-green-600 border-green-200"
  else getStatusBadgeColor statusColor

/-- The status-badge class chain of PRCard.tsx lines 251-257:
`isMerged` first, then `isReadyToMerge`, then the `statusColor` prop. -/
def statusBadgeClass (pr : PullRequest) (statusColor : Severity) : String :=
  if pr.status = PRStatus.merged ∨ pr.status = PRStatus.closed then "status-success"
  else if pr.pending_reviewers.length = 0 ∧ pr.current_approvals_count > 0 then "status-success"
  else if statusColor = Severity.danger then "status-danger"
  else if statusColor = Severity.warning then "status-warning"
  else "status-primary"

/-- The summary record built by the Dashboard `stats` memo
(Dashboard.tsx lines 462-474). `open` is a Lean keyword, hence the tick. -/
structure Stats where
  total : Nat
  open' : Nat
  merged : Nat
  needingReview : Nat
  readyToMerge : Nat
  changesRequested : Nat
deriving DecidableEq

/-- The `stats` memo of Dashboard.tsx lines 462-474. -/
def stats (prs : List PullRequest) (allReviews : List Review) : Stats :=
  { total := prs.length
    open' := (prs.filter fun pr => decide (pr.status = PRStatus.open')).length
    merged := (prs.filter fun pr => decide (pr.status = PRStatus.merged)).length
    needingReview := (prs.filter fun pr =>
      decide (pr.current_approvals_count = 0 ∧ pr.status = PRStatus.open')).length
    readyToMerge := (prs.filter fun pr =>
      decide (pr.pending_reviewers.length = 0 ∧ pr.current_approvals_count > 0 ∧
        pr.status = PRStatus.open')).length
    changesRequested := (prs.filter fun pr =>
      (prReviews allReviews pr).any reviewIsChangesRequested).length }

/-- The `readyToMerge` metric of Analytics.tsx line 53:
`prs.filter(pr => pr.current_approvals_count >= 5).length`. -/
def analyticsReadyToMerge (prs : List PullRequest) : Nat :=
  (prs.filter fun pr => decide (pr.current_approvals_count ≥ 5)).length

/-- The "Ready to merge" badge condition of PRDetailPage.tsx line 186:
`pr.current_approvals_count >= 5`. -/
def prDetailShowsReady (pr : PullRequest) : Bool :=
  decide (pr.current_approvals_count ≥ 5)

/-- The sort keys of the `FilterState` interface (Dashboard.tsx line 42). -/
inductive SortKey where
  | created
  | updated
  | approvals
deriving DecidableEq

/-- The sort orders of the `FilterState` interface (Dashboard.tsx line 43). -/
inductive SortOrder where
  | asc
  | desc
deriving DecidableEq

/-- The `FilterState` interface of Dashboard.tsx lines 38-44. -/
structure FilterState where
  status : String
  needsReview : Bool
  hasChangesRequested : Bool
  sortBy : SortKey
  sortOrder : SortOrder
deriving DecidableEq

/-- The string form of a lifecycle status, as compared against
`filters.status` in Dashboard.tsx line 118. -/
def statusString : PRStatus → String
  | PRStatus.open' => "open"
  | PRStatus.merged => "merged"
  | PRStatus.closed => "closed"

/-- The three filter stages of the `filteredPRs` memo
(Dashboard.tsx lines 113-133), applied in source order. -/
def applyFilters (filters : FilterState) (allReviews : List Review)
    (prs : List PullRequest) : List PullRequest :=
  let f1 := if filters.status ≠ "all" then
      prs.filter fun pr => decide (statusString pr.status = filters.status)
    else prs
  let f2 := if filters.needsReview then
      f1.filter fun pr => decide (pr.current_approvals_count = 0)
    else f1
  if filters.hasChangesRequested then
    f2.filter fun pr => (prReviews allReviews pr).any reviewIsChangesRequested
  else f2

/-- The sort key extracted by the comparator's `switch`
(Dashboard.tsx lines 138-153); dates are their epoch values. -/
def sortKeyValue (k : SortKey) (pr : PullRequest) : Nat :=
  match k with
  | SortKey.created => pr.created_at
  | SortKey.updated => pr.updated_at
  | SortKey.approvals => pr.current_approvals_count

/-- The comparator of Dashboard.tsx lines 155-159. It returns 1 or -1 and
never 0: `aValue > bValue ? 1 : -1` ascending, `aValue < bValue ? 1 : -1`
descending. -/
def jsCompare (filters : FilterState) (a b : PullRequest) : Int :=
  let av := sortKeyValue filters.sortBy a
  let bv := sortKeyValue filters.sortBy b
  match filters.sortOrder with
  | SortOrder.asc => if av > bv then 1 else -1
  | SortOrder.desc => if av < bv then 1 else -1

/-- Stable insertion step: `x` goes in front of the first element `y` with
`le x y`, after everything the comparator places before `x`. -/
def sortInsert (le : PullRequest → PullRequest → Bool) (x : PullRequest) :
    List PullRequest → List PullRequest
  | [] => [x]
  | y :: ys => if le x y then x :: y :: ys else y :: sortInsert le x ys

/-- Stable comparison sort, the model of `Array.prototype.sort`: elements
the comparator does not order strictly keep their input order. -/
def sortList (le : PullRequest → PullRequest → Bool) :
    List PullRequest → List PullRequest
  | [] => []
  | x :: xs => sortInsert le x (sortList le xs)

/-- `filtered.sort((a, b) => ...)` of Dashboard.tsx lines 135-160: a stable
sort driven by the source comparator, keeping elements `a`, `b` in input
order exactly when `jsCompare` does not return a positive value on them. -/
def sortPRs (filters : FilterState) (prs : List PullRequest) : List PullRequest :=
  sortList (fun a b => decide (jsCompare filters a b ≤ 0)) prs

/-- The whole `filteredPRs` memo (Dashboard.tsx lines 113-163):
filter stages, then the sort. -/
def filteredPRs (filters : FilterState) (allReviews : List Review)
    (prs : List PullRequest) : List PullRequest :=
  sortPRs filters (applyFilters filters allReviews prs)

/-- `progressPercentage` of PRCard.tsx lines 202-203:
`totalRequired > 0 ? (pr.current_approvals_count / totalRequired) * 100 : 0`
with `totalRequired = pr.current_approvals_count + pr.pending_reviewers.length`. -/
def progressPercentage (pr : PullRequest) : ℚ :=
  if 0 < pr.current_approvals_count + pr.pending_reviewers.length then
    (pr.current_approvals_count : ℚ) /
      ((pr.current_approvals_count + pr.pending_reviewers.length : ℕ) : ℚ) * 100
  else 0

/-- Rewrite every `submitted_at` field of a review list; used to state that
the classification never reads timestamps. -/
def retime (g : Review → String) (rvs : List Review) : List Review :=
  rvs.map fun r => { r with submitted_at := g r }

/-- Erase the `is_latest_review` hint; two review lists agreeing after
`clearFlag` differ at most in their `is_latest_review` fields. -/
def clearFlag (r : Review) : Review :=
  { r with is_latest_review := false }

/-- A pull-request fixture for concrete test inputs: identity `i`, lifecycle
status `st`, pre-aggregated approval count `a`, pending reviewer list
`pend`, update timestamp `upd`; the remaining fields are inert defaults. -/
def testPR (i : Nat) (st : PRStatus) (a : Nat) (pend : List String) (upd : Nat) :
    PullRequest :=
  ⟨i, i, "title", "author", 0, upd, none, st, true, a, [], [], [], pend, "url"⟩

/-- A review fixture: record id `i`, PR number `n`, reviewer `u`, state `st`,
timestamp string `t`, `is_latest_review` flag `fl`. -/
def testReview (i n : Nat) (u : String) (st : ReviewState) (t : String)
    (fl : Bool) : Review :=
  ⟨i, n, u, st, t, fl⟩

/- Helper lemmas: the classification reads a review record only through its
`pr_id` and `review_state` fields, so any field-preserving rewrite of a
review list leaves every derived value unchanged. -/

/-- `List.any reviewIsChangesRequested` is invariant under mapping a
function that preserves `review_state`. -/
theorem any_cr_map (f : Review → Review)
    (hst : ∀ r, (f r).review_state = r.review_state) (rvs : List Review) :
    (rvs.map f).any reviewIsChangesRequested = rvs.any reviewIsChangesRequested := by
  induction rvs with
  | nil => rfl
  | cons r rs ih => simp [reviewIsChangesRequested, hst r, ih]

/-- `prReviews` commutes with mapping a function that preserves `pr_id`. -/
theorem prReviews_map (f : Review → Review)
    (hid : ∀ r, (f r).pr_id = r.pr_id) (rvs : List Review) (pr : PullRequest) :
    prReviews (rvs.map f) pr = (prReviews rvs pr).map f := by
  induction rvs with
  | nil => rfl
  | cons r rs ih =>
    by_cases hc : r.pr_id = pr.github_pr_number <;>
      simp [prReviews, hid r, hc, List.filter_cons] at ih ⊢ <;> simpa [prReviews] using ih

/-- The per-PR changes-requested test is invariant under mapping a function
that preserves `pr_id` and `review_state`. -/
theorem hasCR_map (f : Review → Review)
    (hid : ∀ r, (f r).pr_id = r.pr_id)
    (hst : ∀ r, (f r).review_state = r.review_state)
    (rvs : List Review) (pr : PullRequest) :
    (prReviews (rvs.map f) pr).any reviewIsChangesRequested =
      (prReviews rvs pr).any reviewIsChangesRequested := by
  rw [prReviews_map f hid, any_cr_map f hst]

/-- `getStatusText` depends on the review list only through the
changes-requested test. -/
theorem getStatusText_congr (pr : PullRequest) (rvs1 rvs2 : List Review)
    (h : rvs1.any reviewIsChangesRequested = rvs2.any reviewIsChangesRequested) :
    getStatusText pr rvs1 = getStatusText pr rvs2 := by
  unfold getStatusText
  rw [h]

/-- `getStatusColor` depends on the review list only through the per-PR
changes-requested test. -/
theorem getStatusColor_congr (pr : PullRequest) (rvs1 rvs2 : List Review)
    (h : (prReviews rvs1 pr).any reviewIsChangesRequested =
      (prReviews rvs2 pr).any reviewIsChangesRequested) :
    getStatusColor pr rvs1 = getStatusColor pr rvs2 := by
  unfold getStatusColor
  rw [h]

/-- Claim C1. The claim says every view derives ready-to-merge dynamically
(pending set empty and approvals positive) and that no view uses a fixed
threshold of 5 approvals. The code refutes it: for a single open PR with
one approval and no pending reviewers, the Dashboard stats count it as
ready to merge (dynamic rule) while the Analytics metric, which counts
`current_approvals_count >= 5`, does not, and the PR detail page's
ready badge (`>= 5`) stays hidden as well. -/
theorem c1_ready_to_merge_views_disagree :
    analyticsReadyToMerge [testPR 1 PRStatus.open' 1 [] 0] = 0 ∧
    (stats [testPR 1 PRStatus.open' 1 [] 0] []).readyToMerge = 1 ∧
    analyticsReadyToMerge [testPR 1 PRStatus.open' 1 [] 0] ≠
      (stats [testPR 1 PRStatus.open' 1 [] 0] []).readyToMerge ∧
    prDetailShowsReady (testPR 1 PRStatus.open' 1 [] 0) = false := by
  decide

/-- Claim C2. The claim says classification uses only each reviewer's
latest review state, so a changes-requested review superseded by a later
approval must not make the PR count as changes-requested. The code
refutes it: with reviewer `x` requesting changes at t1 and approving at
t2 > t1, `getStatusText` scans every record and returns
"Changes requested" in either array order, while the same PR with only
the newer approved record would be labelled "1/2 approvals". -/
theorem c2_stale_changes_requested_wins :
    (testReview 1 1 "x" ReviewState.changes_requested "2024-01-01T00:00:00Z" false).reviewer_username =
      (testReview 2 1 "x" ReviewState.approved "2024-01-02T00:00:00Z" true).reviewer_username ∧
    (testReview 1 1 "x" ReviewState.changes_requested "2024-01-01T00:00:00Z" false).submitted_at <
      (testReview 2 1 "x" ReviewState.approved "2024-01-02T00:00:00Z" true).submitted_at ∧
    getStatusText (testPR 1 PRStatus.open' 1 ["y"] 0)
      [testReview 1 1 "x" ReviewState.changes_requested "2024-01-01T00:00:00Z" false,
       testReview 2 1 "x" ReviewState.approved "2024-01-02T00:00:00Z" true] = "Changes requested" ∧
    getStatusText (testPR 1 PRStatus.open' 1 ["y"] 0)
      [testReview 2 1 "x" ReviewState.approved "2024-01-02T00:00:00Z" true,
       testReview 1 1 "x" ReviewState.changes_requested "2024-01-01T00:00:00Z" false] = "Changes requested" ∧
    getStatusText (testPR 1 PRStatus.open' 1 ["y"] 0)
      [testReview 2 1 "x" ReviewState.approved "2024-01-02T00:00:00Z" true] = "1/2 approvals" := by
  refine ⟨rfl, ?_, by decide, by decide, by decide⟩
  rw [String.lt_iff_toList_lt]
  decide

/-- Claim C3. A PR whose lifecycle status is merged or closed is labelled
"Merged" with success severity, regardless of its approval count, pending
reviewers, or any changes-requested reviews: `getStatusText` returns
"Merged", `getPRStatusColor` returns the green badge colors, and the
status badge class is `status-success`, whatever `statusColor` the
Dashboard computed. -/
theorem c3_merged_overrides_everything (pr : PullRequest) (rvs : List Review)
    (c : Severity) (h : pr.status = PRStatus.merged ∨ pr.status = PRStatus.closed) :
    getStatusText pr rvs = "Merged" ∧
    getPRStatusColor pr c = "bg-green-50 text-green-600 border-green-200" ∧
    statusBadgeClass pr c = "status-success" := by
  rcases h with h | h <;>
    simp [getStatusText, getPRStatusColor, statusBadgeClass, h]

/-- Witness for C3: a merged PR with zero approvals, a pending reviewer,
and a changes-requested review is still shown as "Merged" with success
severity. -/
theorem c3_witness :
    ((testPR 7 PRStatus.merged 0 ["y"] 0).status = PRStatus.merged ∨
      (testPR 7 PRStatus.merged 0 ["y"] 0).status = PRStatus.closed) ∧
    (getStatusText (testPR 7 PRStatus.merged 0 ["y"] 0)
        [testReview 1 7 "x" ReviewState.changes_requested "t" false] = "Merged" ∧
      getPRStatusColor (testPR 7 PRStatus.merged 0 ["y"] 0) Severity.danger =
        "bg-green-50 text-green-600 border-green-200" ∧
      statusBadgeClass (testPR 7 PRStatus.merged 0 ["y"] 0) Severity.danger = "status-success") :=
  ⟨Or.inl rfl, c3_merged_overrides_everything _ _ _ (Or.inl rfl)⟩

/-- Claim C4. For an open PR with zero approvals, at least one
changes-requested review, and a non-empty pending reviewer set, the
zero-approvals rule fires before the changes-requested rule: the label is
"Needs review", not "Changes requested", and the severity is danger. -/
theorem c4_needs_review_precedes_changes_requested (pr : PullRequest)
    (rvs : List Review) (hopen : pr.status = PRStatus.open')
    (ha : pr.current_approvals_count = 0)
    (hcr : rvs.any reviewIsChangesRequested = true)
    (hp : pr.pending_reviewers ≠ []) :
    getStatusText pr rvs = "Needs review" ∧
    getStatusText pr rvs ≠ "Changes requested" ∧
    getStatusColor pr rvs = Severity.danger := by
  have hlen : pr.pending_reviewers.length ≠ 0 := by
    simpa [List.length_eq_zero] using hp
  have hlabel : getStatusText pr rvs = "Needs review" := by
    simp [getStatusText, hopen, ha, hlen]
  refine ⟨hlabel, by rw [hlabel]; decide, ?_⟩
  simp [getStatusColor, ha, hlen]

/-- Witness for C4: an open PR with no approvals, a pending reviewer, and
one changes-requested review is labelled "Needs review" with danger
severity. -/
theorem c4_witness :
    ((testPR 3 PRStatus.open' 0 ["y"] 0).status = PRStatus.open' ∧
      (testPR 3 PRStatus.open' 0 ["y"] 0).current_approvals_count = 0 ∧
      ([testReview 1 3 "x" ReviewState.changes_requested "t" true].any
        reviewIsChangesRequested = true) ∧
      (testPR 3 PRStatus.open' 0 ["y"] 0).pending_reviewers ≠ []) ∧
    (getStatusText (testPR 3 PRStatus.open' 0 ["y"] 0)
        [testReview 1 3 "x" ReviewState.changes_requested "t" true] = "Needs review" ∧
      getStatusText (testPR 3 PRStatus.open' 0 ["y"] 0)
        [testReview 1 3 "x" ReviewState.changes_requested "t" true] ≠ "Changes requested" ∧
      getStatusColor (testPR 3 PRStatus.open' 0 ["y"] 0)
        [testReview 1 3 "x" ReviewState.changes_requested "t" true] = Severity.danger) :=
  ⟨⟨rfl, rfl, by decide, by decide⟩,
    c4_needs_review_precedes_changes_requested _ _ rfl rfl (by decide) (by decide)⟩

/-- Claim C5. The claim says the sort output is deterministic for equal
keys via a stable secondary ordering by PR id. The code refutes it: its
comparator returns 1 or -1 and never 0, with no id tie-break, so two PRs
with equal `updated_at` keep whichever input order they arrive in, and
sorting the two permutations of the same two-element list produces two
different output sequences. -/
theorem c5_sort_order_depends_on_input_order :
    sortPRs ⟨"all", false, false, SortKey.updated, SortOrder.desc⟩
      [testPR 1 PRStatus.open' 0 [] 100, testPR 2 PRStatus.open' 0 [] 100] =
      [testPR 1 PRStatus.open' 0 [] 100, testPR 2 PRStatus.open' 0 [] 100] ∧
    sortPRs ⟨"all", false, false, SortKey.updated, SortOrder.desc⟩
      [testPR 2 PRStatus.open' 0 [] 100, testPR 1 PRStatus.open' 0 [] 100] =
      [testPR 2 PRStatus.open' 0 [] 100, testPR 1 PRStatus.open' 0 [] 100] ∧
    sortPRs ⟨"all", false, false, SortKey.updated, SortOrder.desc⟩
      [testPR 1 PRStatus.open' 0 [] 100, testPR 2 PRStatus.open' 0 [] 100] ≠
    sortPRs ⟨"all", false, false, SortKey.updated, SortOrder.desc⟩
      [testPR 2 PRStatus.open' 0 [] 100, testPR 1 PRStatus.open' 0 [] 100] := by
  refine ⟨by decide, by decide, by decide⟩

/-- Claim C6. Membership in the filtered collection is exactly the
conjunction of the active filters: status equality when a status is
selected, zero approvals when the needs-review filter is on, and the
existence of a changes-requested review for the PR when the
changes-requested filter is on. -/
theorem c6_filters_conjunction (fs : FilterState) (allReviews : List Review)
    (prs : List PullRequest) (pr : PullRequest) :
    pr ∈ applyFilters fs allReviews prs ↔
      pr ∈ prs ∧
      (fs.status ≠ "all" → statusString pr.status = fs.status) ∧
      (fs.needsReview = true → pr.current_approvals_count = 0) ∧
      (fs.hasChangesRequested = true → ∃ r ∈ allReviews,
        r.pr_id = pr.github_pr_number ∧ r.review_state = ReviewState.changes_requested) := by
  have hcr : ((prReviews allReviews pr).any reviewIsChangesRequested = true) ↔
      ∃ r ∈ allReviews, r.pr_id = pr.github_pr_number ∧
        r.review_state = ReviewState.changes_requested := by
    simp [prReviews, reviewIsChangesRequested, List.any_eq_true, List.mem_filter, and_assoc]
  unfold applyFilters
  by_cases h1 : fs.status = "all" <;> by_cases h2 : fs.needsReview = true <;>
    by_cases h3 : fs.hasChangesRequested = true <;>
    simp [h1, h2, h3, List.mem_filter, hcr] <;> tauto

/-- Claim C7. With the pending reviewer set fixed, one more approval never
decreases the approval progress value
`approvals / (approvals + pending) * 100`. -/
theorem c7_progress_monotone (pr pr' : PullRequest)
    (ha : pr'.current_approvals_count = pr.current_approvals_count + 1)
    (hp : pr'.pending_reviewers = pr.pending_reviewers) :
    progressPercentage pr ≤ progressPercentage pr' := by
  unfold progressPercentage
  rcases Nat.eq_zero_or_pos (pr.current_approvals_count + pr.pending_reviewers.length)
    with h0 | h0
  · rw [if_neg (by omega), if_pos (by omega)]
    positivity
  · rw [if_pos h0, if_pos (by omega)]
    have hq0 : (0 : ℚ) < ((pr.current_approvals_count + pr.pending_reviewers.length : ℕ) : ℚ) := by
      exact_mod_cast h0
    have hq1 : (0 : ℚ) <
        ((pr'.current_approvals_count + pr'.pending_reviewers.length : ℕ) : ℚ) := by
      exact_mod_cast (show 0 < pr'.current_approvals_count + pr'.pending_reviewers.length by omega)
    apply mul_le_mul_of_nonneg_right _ (by norm_num)
    rw [div_le_div_iff₀ hq0 hq1]
    have hnn : (0 : ℚ) ≤ (pr.pending_reviewers.length : ℚ) := by positivity
    push_cast [ha, hp]
    nlinarith [hnn]

/-- Witness for C7: going from one to two approvals with one pending
reviewer does not decrease the progress value. -/
theorem c7_witness :
    ((testPR 4 PRStatus.open' 2 ["y"] 0).current_approvals_count =
      (testPR 4 PRStatus.open' 1 ["y"] 0).current_approvals_count + 1 ∧
      (testPR 4 PRStatus.open' 2 ["y"] 0).pending_reviewers =
        (testPR 4 PRStatus.open' 1 ["y"] 0).pending_reviewers) ∧
    progressPercentage (testPR 4 PRStatus.open' 1 ["y"] 0) ≤
      progressPercentage (testPR 4 PRStatus.open' 2 ["y"] 0) :=
  ⟨⟨rfl, rfl⟩, c7_progress_monotone _ _ rfl rfl⟩

/-- Claim C8, amended. Empty collections never fail: the stats memo over an
empty PR list is the all-zero summary (for any review list), and the
classifier is total, always returning one of the canonical labels —
"Merged", "Ready to merge", "No reviewers assigned", "Needs review",
"Changes requested", or the approvals-progress label. (The claim's own
label list omitted "Merged" and the approvals-progress label; see the
counterexample.) -/
theorem c8_empty_inputs_are_total :
    (∀ rvs : List Review, stats [] rvs = ⟨0, 0, 0, 0, 0, 0⟩) ∧
    (∀ (pr : PullRequest) (rvs : List Review),
      getStatusText pr rvs = "Merged" ∨ getStatusText pr rvs = "Ready to merge" ∨
      getStatusText pr rvs = "No reviewers assigned" ∨ getStatusText pr rvs = "Needs review" ∨
      getStatusText pr rvs = "Changes requested" ∨
      ∃ a t, getStatusText pr rvs = approvalsLabel a t) := by
  constructor
  · intro rvs; rfl
  · intro pr rvs
    unfold getStatusText
    split_ifs <;> simp

/-- Counterexample for C8 as stated: an open PR with two pre-aggregated
approvals, one pending reviewer, and an empty review list classifies to
"2/3 approvals", which is none of the three labels the claim lists. -/
theorem c8_counterexample_label_outside_list :
    getStatusText (testPR 5 PRStatus.open' 2 ["y"] 0) [] = "2/3 approvals" ∧
    ¬(getStatusText (testPR 5 PRStatus.open' 2 ["y"] 0) [] = "Needs review" ∨
      getStatusText (testPR 5 PRStatus.open' 2 ["y"] 0) [] = "No reviewers assigned" ∨
      getStatusText (testPR 5 PRStatus.open' 2 ["y"] 0) [] = "Ready to merge") := by
  refine ⟨by decide, by decide⟩

/-- Counterexample for C9 as stated: a review record whose `submitted_at`
is the malformed string "not-a-date" is not rejected or excluded — the
classifier still counts it, labelling the PR "Changes requested", whereas
classifying only the remaining (valid) records would give
"1/2 approvals". -/
theorem c9_counterexample_malformed_still_counted :
    (testReview 9 6 "x" ReviewState.changes_requested "not-a-date" true).submitted_at =
      "not-a-date" ∧
    getStatusText (testPR 6 PRStatus.open' 1 ["y"] 0)
      [testReview 9 6 "x" ReviewState.changes_requested "not-a-date" true] =
      "Changes requested" ∧
    getStatusText (testPR 6 PRStatus.open' 1 ["y"] 0) [] = "1/2 approvals" ∧
    getStatusText (testPR 6 PRStatus.open' 1 ["y"] 0)
        [testReview 9 6 "x" ReviewState.changes_requested "not-a-date" true] ≠
      getStatusText (testPR 6 PRStatus.open' 1 ["y"] 0) [] := by
  refine ⟨rfl, by decide, by decide, by decide⟩

/-- Claim C9, amended. The classification and filtering code performs no
timestamp validation at all: it never reads `submitted_at`, so rewriting
every timestamp arbitrarily (including to malformed strings) changes
neither the label, the severity, nor the filtered collection — every
record is processed uniformly and no record is rejected or excluded. -/
theorem c9_classification_never_reads_timestamps (pr : PullRequest)
    (prs : List PullRequest) (fs : FilterState) (rvs : List Review)
    (g : Review → String) :
    getStatusText pr (retime g rvs) = getStatusText pr rvs ∧
    getStatusColor pr (retime g rvs) = getStatusColor pr rvs ∧
    applyFilters fs (retime g rvs) prs = applyFilters fs rvs prs := by
  unfold retime
  refine ⟨?_, ?_, ?_⟩
  · exact getStatusText_congr pr _ _
      (any_cr_map (fun r => { r with submitted_at := g r }) (fun r => rfl) rvs)
  · exact getStatusColor_congr pr _ _
      (hasCR_map (fun r => { r with submitted_at := g r }) (fun r => rfl) (fun r => rfl) rvs pr)
  · unfold applyFilters
    have hfun : (fun pr =>
        (prReviews (rvs.map fun r => { r with submitted_at := g r }) pr).any
          reviewIsChangesRequested) =
        (fun pr => (prReviews rvs pr).any reviewIsChangesRequested) :=
      funext fun q =>
        hasCR_map (fun r => { r with submitted_at := g r }) (fun r => rfl) (fun r => rfl) rvs q
    rw [hfun]

/-- Claim C10. Two review lists that agree after erasing their
`is_latest_review` flags produce identical status labels, identical
severities, and identical dashboard summary stats: no part of the
classification or aggregation reads `is_latest_review`. -/
theorem c10_latest_flag_noninterference (pr : PullRequest)
    (prs : List PullRequest) (rvs1 rvs2 : List Review)
    (h : rvs1.map clearFlag = rvs2.map clearFlag) :
    getStatusText pr rvs1 = getStatusText pr rvs2 ∧
    getStatusColor pr rvs1 = getStatusColor pr rvs2 ∧
    stats prs rvs1 = stats prs rvs2 := by
  have hany : rvs1.any reviewIsChangesRequested = rvs2.any reviewIsChangesRequested := by
    have e1 := any_cr_map clearFlag (fun r => rfl) rvs1
    have e2 := any_cr_map clearFlag (fun r => rfl) rvs2
    rw [← e1, ← e2, h]
  have hper : ∀ q : PullRequest,
      (prReviews rvs1 q).any reviewIsChangesRequested =
        (prReviews rvs2 q).any reviewIsChangesRequested := by
    intro q
    have e1 := hasCR_map clearFlag (fun r => rfl) (fun r => rfl) rvs1 q
    have e2 := hasCR_map clearFlag (fun r => rfl) (fun r => rfl) rvs2 q
    rw [← e1, ← e2, h]
  refine ⟨getStatusText_congr pr _ _ hany, getStatusColor_congr pr _ _ (hper pr), ?_⟩
  unfold stats
  have hfun : (fun pr => (prReviews rvs1 pr).any reviewIsChangesRequested) =
      (fun pr => (prReviews rvs2 pr).any reviewIsChangesRequested) :=
    funext hper
  rw [hfun]

/-- Witness for C10: flipping the `is_latest_review` flag on a concrete
review record changes neither label, severity, nor stats. -/
theorem c10_witness :
    ([testReview 1 8 "x" ReviewState.approved "t1" true].map clearFlag =
      [testReview 1 8 "x" ReviewState.approved "t1" false].map clearFlag) ∧
    (getStatusText (testPR 8 PRStatus.open' 1 ["y"] 0)
        [testReview 1 8 "x" ReviewState.approved "t1" true] =
      getStatusText (testPR 8 PRStatus.open' 1 ["y"] 0)
        [testReview 1 8 "x" ReviewState.approved "t1" false] ∧
      getStatusColor (testPR 8 PRStatus.open' 1 ["y"] 0)
        [testReview 1 8 "x" ReviewState.approved "t1" true] =
      getStatusColor (testPR 8 PRStatus.open' 1 ["y"] 0)
        [testReview 1 8 "x" ReviewState.approved "t1" false] ∧
      stats [testPR 8 PRStatus.open' 1 ["y"] 0]
        [testReview 1 8 "x" ReviewState.approved "t1" true] =
      stats [testPR 8 PRStatus.open' 1 ["y"] 0]
        [testReview 1 8 "x" ReviewState.approved "t1" false]) :=
  ⟨rfl, c10_latest_flag_noninterference _ _ _ _ rfl⟩
